import Mathlib

/-!
Shallow embedding of the coingecko-selector pipeline
(`src/coingecko-selector.py`): rate-limited fetch, per-token metric
derivation (`calculate_metrics`, `calculate_additional_metrics`),
composite scoring and top-30 selection (`rank_tokens`), tier
orchestration (`rank_tier`), and the four-category intersection
partitions from `visualize_additional_metrics`.

Numeric fields are modelled as exact rationals (the spec promises no
floating-point precision guarantees).  The one place the Python code can
divide by zero — the `pvrd` column when the batch mean of `pvr` is zero —
is modelled with an explicit IEEE-style extended value type `FVal`
(finite / +inf / -inf / NaN), mirroring how pandas produces inf/NaN
instead of raising.  Python `None` is modelled as `Option.none`; a JSON
field that may be absent or null is an `Option (Option ℚ)` (outer layer:
key present in the dict; inner layer: value non-null).
-/

namespace CoinGecko

/-- Extended value produced by a float division that may divide by zero:
either a finite rational, +inf, -inf, or NaN.  This mirrors numpy/pandas
behaviour, where `x / 0.0` yields inf (x > 0), -inf (x < 0) or NaN
(x = 0) with a warning rather than raising. -/
inductive FVal where
  | fin : ℚ → FVal
  | pinf : FVal
  | ninf : FVal
  | nan : FVal
deriving DecidableEq, Repr

/-- IEEE-style division of rationals: exact when the denominator is
nonzero, and inf, -inf or NaN when it is zero (numpy float semantics). -/
def fdiv (a b : ℚ) : FVal :=
  if b = 0 then
    if a = 0 then FVal.nan
    else if 0 < a then FVal.pinf
    else FVal.ninf
  else FVal.fin (a / b)

/-- The comparison `v < 0` on an extended value, as numpy evaluates it:
NaN compares false, -inf compares true. -/
def fvalNeg : FVal → Bool
  | FVal.fin q => decide (q < 0)
  | FVal.pinf => false
  | FVal.ninf => true
  | FVal.nan => false

/-- Arithmetic mean of a list of rationals, as `pandas.Series.mean`
computes it for a nonempty column (sum divided by length). -/
def meanQ (xs : List ℚ) : ℚ := xs.sum / (xs.length : ℚ)

/-- One market observation per token, as returned by the CoinGecko
`/coins/markets` endpoint after JSON decoding.  The 7-day
percentage-change field may be absent from the JSON object (outer
`none`) or present with a null value (inner `none`), exactly the two
situations the Python code distinguishes via `dict.get`. -/
structure TokenSnapshot where
  name : String
  symbol : String
  current_price : ℚ
  total_volume : ℚ
  market_cap : ℚ
  ath : ℚ
  price_change_percentage_7d_in_currency : Option (Option ℚ)
deriving DecidableEq, Repr

/-- The global aggregate market data used as the VSI denominator
(`global_data['total_volume']['usd']` in the source). -/
structure GlobalData where
  total_volume_usd : ℚ
deriving DecidableEq, Repr

/-- The per-token record built by `calculate_metrics`. -/
structure TokenMetrics where
  token : String
  pvr : ℚ
  rvol : ℚ
  momentum : ℚ
  vsi : ℚ
deriving DecidableEq, Repr

/-- `calculate_metrics` (source lines 69-92): pvr = total_volume /
current_price guarded by `current_price > 0`, rvol guarded by
`market_cap > 0`, momentum = (7d change or 0) / 100, vsi guarded by
`global_volume > 0`.  The Python `token.get(k) or 0` collapses both an
absent key and a null value (and a zero) to 0; numerically that is the
inner value when present and non-null, else 0. -/
def calculate_metrics (token : TokenSnapshot) (global_data : GlobalData) :
    TokenMetrics :=
  let pvr : ℚ :=
    if 0 < token.current_price then token.total_volume / token.current_price
    else 0
  let price_change_percentage_7d : ℚ :=
    match token.price_change_percentage_7d_in_currency with
    | some (some v) => v
    | _ => 0
  let rvol : ℚ :=
    if 0 < token.market_cap then token.total_volume / token.market_cap
    else 0
  let momentum : ℚ := price_change_percentage_7d / 100
  let vsi : ℚ :=
    if 0 < global_data.total_volume_usd then
      token.total_volume / global_data.total_volume_usd
    else 0
  { token := token.name, pvr := pvr, rvol := rvol,
    momentum := momentum, vsi := vsi }

/-- The three standalone metrics returned by
`calculate_additional_metrics`.  `price_change_7d` keeps Python typing:
`dict.get(k, 0)` returns the stored value even when that value is null,
so the result is `Option ℚ` with `none` modelling Python `None`. -/
structure AdditionalMetrics where
  potential_gains : ℚ
  price_change_7d : Option ℚ
  mc_vol : ℚ
deriving DecidableEq, Repr

/-- `calculate_additional_metrics` (source lines 95-111): substitutes 1
for each of current_price, ath, total_volume, market_cap that is ≤ 0,
then potential_gains = ath / current_price and the MC/Volume figure =
market_cap / total_volume.  `price_change_7d` is
`token.get('price_change_percentage_7d_in_currency', 0)`: the default 0
applies only when the key is absent; a present null value is returned
unchanged. -/
def calculate_additional_metrics (token : TokenSnapshot) :
    AdditionalMetrics :=
  let current_price : ℚ :=
    if 0 < token.current_price then token.current_price else 1
  let ath_price : ℚ := if 0 < token.ath then token.ath else 1
  let total_volume : ℚ :=
    if 0 < token.total_volume then token.total_volume else 1
  let market_cap : ℚ :=
    if 0 < token.market_cap then token.market_cap else 1
  { potential_gains := ath_price / current_price,
    price_change_7d :=
      match token.price_change_percentage_7d_in_currency with
      | none => some 0
      | some v => v,
    mc_vol := market_cap / total_volume }

/-- A row of the scored dataframe built by `rank_tokens`: the input
metrics plus the pvrd column, the five ±1 component scores and the final
score. -/
structure ScoredToken where
  token : String
  pvr : ℚ
  rvol : ℚ
  momentum : ℚ
  vsi : ℚ
  pvrd : FVal
  pvr_score : ℤ
  rvol_score : ℤ
  momentum_score : ℤ
  pvrd_score : ℤ
  vsi_score : ℤ
  final_score : ℤ
deriving DecidableEq, Repr

/-- Scoring of one row against the batch statistics (source lines
118-128).  pvrd = (pvr - mean(pvr)) / mean(pvr) with float semantics;
each component score is `1 if <condition> else -1` with the strict
comparisons of the source; final_score is the sum of the five. -/
def score_token (ms : List TokenMetrics) (m : TokenMetrics) : ScoredToken :=
  let pvr_mean := meanQ (ms.map TokenMetrics.pvr)
  let rvol_mean := meanQ (ms.map TokenMetrics.rvol)
  let momentum_mean := meanQ (ms.map TokenMetrics.momentum)
  let vsi_mean := meanQ (ms.map TokenMetrics.vsi)
  let pvrd := fdiv (m.pvr - pvr_mean) pvr_mean
  let pvr_score : ℤ := if m.pvr < pvr_mean then 1 else -1
  let rvol_score : ℤ := if rvol_mean < m.rvol then 1 else -1
  let momentum_score : ℤ := if m.momentum < momentum_mean then 1 else -1
  let pvrd_score : ℤ := if fvalNeg pvrd then 1 else -1
  let vsi_score : ℤ := if vsi_mean < m.vsi then 1 else -1
  { token := m.token, pvr := m.pvr, rvol := m.rvol,
    momentum := m.momentum, vsi := m.vsi, pvrd := pvrd,
    pvr_score := pvr_score, rvol_score := rvol_score,
    momentum_score := momentum_score, pvrd_score := pvrd_score,
    vsi_score := vsi_score,
    final_score :=
      pvr_score + rvol_score + momentum_score + pvrd_score + vsi_score }

/-- The columnwise scoring of the whole dataframe: every row is scored
against the means of the full batch. -/
def score_tokens (ms : List TokenMetrics) : List ScoredToken :=
  ms.map (score_token ms)

/-- Insert a row into a list that is sorted by final_score descending,
keeping it sorted (helper for the model of
`df.sort_values(by='final_score', ascending=False)`). -/
def insertDesc (x : ScoredToken) : List ScoredToken → List ScoredToken
  | [] => [x]
  | y :: ys =>
    if y.final_score < x.final_score then x :: y :: ys
    else y :: insertDesc x ys

/-- Sort rows by final_score descending.  The source delegates to pandas
`sort_values` with the default (unstable) quicksort kind; this model
fixes one concrete sort by the same key.  Every property proved below
about the sorted output depends only on the output being some
final_score-descending reordering of the input, which any correct
sort-by-key shares; tie order among equal scores is NOT a property of
the source and is not claimed by any theorem below. -/
def sortDesc : List ScoredToken → List ScoredToken
  | [] => []
  | x :: xs => insertDesc x (sortDesc xs)

/-- `rank_tokens` (source lines 114-133): build the scored dataframe,
sort by final_score descending, and keep the first 30 rows
(`.head(30)`). -/
def rank_tokens (tokens_metrics : List TokenMetrics) : List ScoredToken :=
  (sortDesc (score_tokens tokens_metrics)).take 30

/-- One HTTP response: a status code and (when the status is 200) a
decoded JSON payload, abstracted as a natural number. -/
structure HttpResponse where
  status : ℕ
  body : ℕ
deriving DecidableEq, Repr

/-- The observable outcome of one `fetch_with_rate_limit` call: how many
GET requests were issued, how many time units were slept, and the value
returned (`none` models Python `None`). -/
structure FetchOutcome where
  requests : ℕ
  slept : ℕ
  result : Option ℕ
deriving DecidableEq, Repr

/-- `fetch_with_rate_limit` (source lines 9-22) against a response
sequence `resp` (`resp i` is the response to the i-th GET issued by this
call): one GET; if its status is 429, sleep 60 seconds and issue exactly
one more GET; then return the JSON body if the last status is 200, else
`None`. -/
def fetch_with_rate_limit (resp : ℕ → HttpResponse) : FetchOutcome :=
  let r0 := resp 0
  if r0.status = 429 then
    let r1 := resp 1
    { requests := 2, slept := 60,
      result := if r1.status = 200 then some r1.body else none }
  else
    { requests := 1, slept := 0,
      result := if r0.status = 200 then some r0.body else none }

/-- The observable outcome of one `rank_tier` call: whether the tier was
ranked, how many token pages were fetched, how many `calculate_metrics`
invocations happened, the ranked top-30 (when ranking ran), and the
additional-metrics table for every fetched token. -/
structure TierReport where
  ok : Bool
  pages_fetched : ℕ
  metrics_computed : ℕ
  ranked : Option (List ScoredToken)
  additional : List (String × AdditionalMetrics)
deriving DecidableEq, Repr

/-- `rank_tier` (source lines 269-313), parameterised by the outcome of
the global-data fetch and by what the token-page fetch would return if
issued.  Python truthiness on `if global_data:` / `if top_tokens:` makes
`None` and an empty token list both take the failure branch.  When the
global fetch failed the page is never fetched (`pages_fetched = 0`) and
no per-token computation runs (`metrics_computed = 0`). -/
def rank_tier (global_data : Option GlobalData)
    (page : Option (List TokenSnapshot)) : TierReport :=
  match global_data with
  | none =>
    { ok := false, pages_fetched := 0, metrics_computed := 0,
      ranked := none, additional := [] }
  | some gd =>
    match page with
    | none =>
      { ok := false, pages_fetched := 1, metrics_computed := 0,
        ranked := none, additional := [] }
    | some top_tokens =>
      if top_tokens.isEmpty then
        { ok := false, pages_fetched := 1, metrics_computed := 0,
          ranked := none, additional := [] }
      else
        { ok := true, pages_fetched := 1,
          metrics_computed := top_tokens.length,
          ranked := some (rank_tokens
            (top_tokens.map (fun t => calculate_metrics t gd))),
          additional := top_tokens.map
            (fun t => (t.name, calculate_additional_metrics t)) }

/-- `tokens_in_all_four` (source lines 432-435): the tokens appearing in
all four top-30 category sets. -/
def tokens_in_all_four (A B C D : Finset String) : Finset String :=
  A ∩ B ∩ C ∩ D

/-- `tokens_in_three` (source lines 445-450): the union of the four
triple intersections, minus the tokens already in all four. -/
def tokens_in_three (A B C D : Finset String) : Finset String :=
  ((A ∩ B ∩ C) ∪ (A ∩ B ∩ D) ∪ (B ∩ C ∩ D) ∪ (A ∩ C ∩ D)) \
    tokens_in_all_four A B C D

/-- `tokens_in_two` (source lines 460-467): the union of the six pair
intersections, minus the all-four tokens, minus the exactly-three
tokens. -/
def tokens_in_two (A B C D : Finset String) : Finset String :=
  (((A ∩ B) ∪ (A ∩ C) ∪ (A ∩ D) ∪ (B ∩ C) ∪ (B ∩ D) ∪ (C ∩ D)) \
    tokens_in_all_four A B C D) \ tokens_in_three A B C D

/-- The sort key relation of `rank_tokens`: descending final_score. -/
def scoreGE (a b : ScoredToken) : Prop := b.final_score ≤ a.final_score

theorem insertDesc_perm (x : ScoredToken) (l : List ScoredToken) :
    List.Perm (insertDesc x l) (x :: l) := by
  induction l with
  | nil => exact List.Perm.refl _
  | cons y ys ih =>
    rw [insertDesc]
    split
    · exact List.Perm.refl _
    · exact (ih.cons y).trans (List.Perm.swap x y ys)

theorem sortDesc_perm (l : List ScoredToken) :
    List.Perm (sortDesc l) l := by
  induction l with
  | nil => exact List.Perm.refl _
  | cons x xs ih => exact (insertDesc_perm x (sortDesc xs)).trans (ih.cons x)

theorem insertDesc_sorted (x : ScoredToken) {l : List ScoredToken}
    (h : List.Sorted scoreGE l) : List.Sorted scoreGE (insertDesc x l) := by
  induction l with
  | nil => simp [insertDesc]
  | cons y ys ih =>
    rw [List.sorted_cons] at h
    obtain ⟨hy, hys⟩ := h
    rw [insertDesc]
    split_ifs with hxy
    · rw [List.sorted_cons]
      refine ⟨?_, List.sorted_cons.2 ⟨hy, hys⟩⟩
      intro b hb
      rcases List.mem_cons.1 hb with rfl | hb
      · exact le_of_lt hxy
      · exact le_trans (hy b hb) (le_of_lt hxy)
    · rw [List.sorted_cons]
      refine ⟨?_, ih hys⟩
      intro b hb
      rcases List.mem_cons.1 ((insertDesc_perm x ys).mem_iff.1 hb) with rfl | hb
      · exact le_of_not_lt hxy
      · exact hy b hb

theorem sortDesc_sorted (l : List ScoredToken) :
    List.Sorted scoreGE (sortDesc l) := by
  induction l with
  | nil => simp [sortDesc]
  | cons x xs ih => exact insertDesc_sorted x ih

theorem sortDesc_length (l : List ScoredToken) :
    (sortDesc l).length = l.length :=
  (sortDesc_perm l).length_eq

theorem rank_tokens_length (ms : List TokenMetrics) :
    (rank_tokens ms).length = min 30 ms.length := by
  rw [rank_tokens, List.length_take, sortDesc_length, score_tokens,
    List.length_map]

theorem mem_rank_tokens {t : ScoredToken} {ms : List TokenMetrics}
    (h : t ∈ rank_tokens ms) : ∃ m ∈ ms, t = score_token ms m := by
  have h1 : t ∈ sortDesc (score_tokens ms) := List.mem_of_mem_take h
  have h2 : t ∈ score_tokens ms :=
    (sortDesc_perm (score_tokens ms)).mem_iff.1 h1
  obtain ⟨m, hm, hmt⟩ := List.mem_map.1 h2
  exact ⟨m, hm, hmt.symm⟩

theorem sum_of_five_pm_one (a b c d e : ℤ)
    (ha : a = 1 ∨ a = -1) (hb : b = 1 ∨ b = -1) (hc : c = 1 ∨ c = -1)
    (hd : d = 1 ∨ d = -1) (he : e = 1 ∨ e = -1) :
    a + b + c + d + e ∈ ({-5, -3, -1, 1, 3, 5} : Finset ℤ) := by
  rcases ha with rfl | rfl <;> rcases hb with rfl | rfl <;>
    rcases hc with rfl | rfl <;> rcases hd with rfl | rfl <;>
    rcases he with rfl | rfl <;> decide

theorem ite_pm_one (c : Prop) [Decidable c] :
    ((if c then (1 : ℤ) else -1) = 1 ↔ c) ∧
    ((if c then (1 : ℤ) else -1) = -1 ↔ ¬c) ∧
    ((if c then (1 : ℤ) else -1) = 1 ∨ (if c then (1 : ℤ) else -1) = -1) := by
  split_ifs with h <;> simp [h]

theorem score_token_pvr_score (ms : List TokenMetrics) (m : TokenMetrics) :
    (score_token ms m).pvr_score =
      if m.pvr < meanQ (ms.map TokenMetrics.pvr) then 1 else -1 := rfl

theorem score_token_rvol_score (ms : List TokenMetrics) (m : TokenMetrics) :
    (score_token ms m).rvol_score =
      if meanQ (ms.map TokenMetrics.rvol) < m.rvol then 1 else -1 := rfl

theorem score_token_momentum_score (ms : List TokenMetrics)
    (m : TokenMetrics) :
    (score_token ms m).momentum_score =
      if m.momentum < meanQ (ms.map TokenMetrics.momentum) then 1 else -1 :=
  rfl

theorem score_token_pvrd (ms : List TokenMetrics) (m : TokenMetrics) :
    (score_token ms m).pvrd =
      fdiv (m.pvr - meanQ (ms.map TokenMetrics.pvr))
        (meanQ (ms.map TokenMetrics.pvr)) := rfl

theorem score_token_pvrd_score (ms : List TokenMetrics) (m : TokenMetrics) :
    (score_token ms m).pvrd_score =
      if fvalNeg ((score_token ms m).pvrd) then 1 else -1 := rfl

theorem score_token_vsi_score (ms : List TokenMetrics) (m : TokenMetrics) :
    (score_token ms m).vsi_score =
      if meanQ (ms.map TokenMetrics.vsi) < m.vsi then 1 else -1 := rfl

theorem score_token_final_score (ms : List TokenMetrics) (m : TokenMetrics) :
    (score_token ms m).final_score =
      (score_token ms m).pvr_score + (score_token ms m).rvol_score +
        (score_token ms m).momentum_score + (score_token ms m).pvrd_score +
        (score_token ms m).vsi_score := rfl

/-- C1: for every nonempty batch of token metrics, every token returned
by `rank_tokens` has each of its five component scores equal to +1 or
-1, its final_score equal to the sum of the five component scores, and
hence a final_score in the set of odd values between -5 and 5: never
even, never zero, never outside the range. -/
theorem c1_final_score_sum_of_five_pm_one (ms : List TokenMetrics)
    (_hne : ms ≠ []) (t : ScoredToken) (ht : t ∈ rank_tokens ms) :
    (t.pvr_score = 1 ∨ t.pvr_score = -1) ∧
    (t.rvol_score = 1 ∨ t.rvol_score = -1) ∧
    (t.momentum_score = 1 ∨ t.momentum_score = -1) ∧
    (t.pvrd_score = 1 ∨ t.pvrd_score = -1) ∧
    (t.vsi_score = 1 ∨ t.vsi_score = -1) ∧
    t.final_score = t.pvr_score + t.rvol_score + t.momentum_score +
      t.pvrd_score + t.vsi_score ∧
    t.final_score ∈ ({-5, -3, -1, 1, 3, 5} : Finset ℤ) := by
  obtain ⟨m, hm, rfl⟩ := mem_rank_tokens ht
  refine ⟨?_, ?_, ?_, ?_, ?_, score_token_final_score ms m, ?_⟩
  · rw [score_token_pvr_score]; exact (ite_pm_one _).2.2
  · rw [score_token_rvol_score]; exact (ite_pm_one _).2.2
  · rw [score_token_momentum_score]; exact (ite_pm_one _).2.2
  · rw [score_token_pvrd_score]; exact (ite_pm_one _).2.2
  · rw [score_token_vsi_score]; exact (ite_pm_one _).2.2
  · rw [score_token_final_score, score_token_pvr_score,
      score_token_rvol_score, score_token_momentum_score,
      score_token_pvrd_score, score_token_vsi_score]
    exact sum_of_five_pm_one _ _ _ _ _ (ite_pm_one _).2.2 (ite_pm_one _).2.2
      (ite_pm_one _).2.2 (ite_pm_one _).2.2 (ite_pm_one _).2.2

/-- Concrete batch used to instantiate the C1 theorem. -/
def c1Batch : List TokenMetrics := [⟨"alpha", 2, 3, 5, 7⟩]

theorem c1_witness :
    (score_token c1Batch ⟨"alpha", 2, 3, 5, 7⟩).final_score ∈
      ({-5, -3, -1, 1, 3, 5} : Finset ℤ) :=
  (c1_final_score_sum_of_five_pm_one c1Batch (by simp [c1Batch]) _
    (by simp [rank_tokens, score_tokens, sortDesc, insertDesc,
      c1Batch])).2.2.2.2.2.2

/-- C2: for every nonempty batch, `rank_tokens` returns exactly
min(30, batch size) rows; together with the rows it drops they form a
permutation of the scored batch (so nothing errors and nothing is lost
when the batch has fewer than 30 tokens); and every returned row's
final_score is at least the final_score of every row not returned. -/
theorem c2_top30_by_final_score (ms : List TokenMetrics) (_hne : ms ≠ []) :
    (rank_tokens ms).length = min 30 ms.length ∧
    List.Perm (rank_tokens ms ++ (sortDesc (score_tokens ms)).drop 30)
      (score_tokens ms) ∧
    ∀ x ∈ rank_tokens ms, ∀ y ∈ (sortDesc (score_tokens ms)).drop 30,
      y.final_score ≤ x.final_score := by
  refine ⟨rank_tokens_length ms, ?_, ?_⟩
  · rw [rank_tokens, List.take_append_drop]
    exact sortDesc_perm (score_tokens ms)
  · intro x hx y hy
    exact (sortDesc_sorted
      (score_tokens ms)).rel_of_mem_take_of_mem_drop hx hy

/-- Concrete five-token batch used to instantiate the C2 theorem: a
batch smaller than 30 returns all its tokens. -/
def c2Batch : List TokenMetrics :=
  [⟨"a", 1, 1, 1, 1⟩, ⟨"b", 2, 2, 2, 2⟩, ⟨"c", 3, 3, 3, 3⟩,
   ⟨"d", 4, 4, 4, 4⟩, ⟨"e", 5, 5, 5, 5⟩]

theorem c2_witness : (rank_tokens c2Batch).length = min 30 c2Batch.length :=
  (c2_top30_by_final_score c2Batch (by simp [c2Batch])).1

/-- Concrete three-token batch with pvr values 10, 20, 30 (mean 20),
the tie-at-mean scenario of the spec. -/
def c3Batch : List TokenMetrics :=
  [⟨"a", 10, 0, 0, 0⟩, ⟨"b", 20, 0, 0, 0⟩, ⟨"c", 30, 0, 0, 0⟩]

/-- C3: the five component scores use strict comparisons — pvr_score is
+1 exactly when pvr is strictly below the batch mean (and -1
otherwise), rvol_score +1 exactly when rvol is strictly above its mean,
momentum_score +1 exactly when momentum is strictly below its mean,
pvrd_score +1 exactly when the pvrd value compares strictly below zero,
vsi_score +1 exactly when vsi is strictly above its mean; and on the
concrete batch with pvr = [10, 20, 30] (mean 20) the pvr scores are
[+1, -1, -1]: the token exactly at the mean gets -1. -/
theorem c3_strict_mean_thresholds :
    (∀ ms : List TokenMetrics, ∀ m ∈ ms,
      ((score_token ms m).pvr_score = 1 ↔
        m.pvr < meanQ (ms.map TokenMetrics.pvr)) ∧
      ((score_token ms m).pvr_score = -1 ↔
        ¬m.pvr < meanQ (ms.map TokenMetrics.pvr)) ∧
      ((score_token ms m).rvol_score = 1 ↔
        meanQ (ms.map TokenMetrics.rvol) < m.rvol) ∧
      ((score_token ms m).rvol_score = -1 ↔
        ¬meanQ (ms.map TokenMetrics.rvol) < m.rvol) ∧
      ((score_token ms m).momentum_score = 1 ↔
        m.momentum < meanQ (ms.map TokenMetrics.momentum)) ∧
      ((score_token ms m).momentum_score = -1 ↔
        ¬m.momentum < meanQ (ms.map TokenMetrics.momentum)) ∧
      ((score_token ms m).pvrd_score = 1 ↔
        fvalNeg ((score_token ms m).pvrd) = true) ∧
      ((score_token ms m).pvrd_score = -1 ↔
        ¬fvalNeg ((score_token ms m).pvrd) = true) ∧
      ((score_token ms m).vsi_score = 1 ↔
        meanQ (ms.map TokenMetrics.vsi) < m.vsi) ∧
      ((score_token ms m).vsi_score = -1 ↔
        ¬meanQ (ms.map TokenMetrics.vsi) < m.vsi)) ∧
    (score_tokens c3Batch).map ScoredToken.pvr_score = [1, -1, -1] := by
  constructor
  · intro ms m _
    refine ⟨?_, ?_, ?_, ?_, ?_, ?_, ?_, ?_, ?_, ?_⟩
    · rw [score_token_pvr_score]; exact (ite_pm_one _).1
    · rw [score_token_pvr_score]; exact (ite_pm_one _).2.1
    · rw [score_token_rvol_score]; exact (ite_pm_one _).1
    · rw [score_token_rvol_score]; exact (ite_pm_one _).2.1
    · rw [score_token_momentum_score]; exact (ite_pm_one _).1
    · rw [score_token_momentum_score]; exact (ite_pm_one _).2.1
    · rw [score_token_pvrd_score]; exact (ite_pm_one _).1
    · rw [score_token_pvrd_score]; exact (ite_pm_one _).2.1
    · rw [score_token_vsi_score]; exact (ite_pm_one _).1
    · rw [score_token_vsi_score]; exact (ite_pm_one _).2.1
  · norm_num [score_tokens, score_token, c3Batch, meanQ]

theorem c3_witness :
    ((score_token c3Batch ⟨"b", 20, 0, 0, 0⟩).pvr_score = -1 ↔
      ¬(20 : ℚ) < meanQ (c3Batch.map TokenMetrics.pvr)) :=
  (c3_strict_mean_thresholds.1 c3Batch ⟨"b", 20, 0, 0, 0⟩
    (by simp [c3Batch])).2.1

theorem calculate_metrics_pvr (t : TokenSnapshot) (gd : GlobalData) :
    (calculate_metrics t gd).pvr =
      if 0 < t.current_price then t.total_volume / t.current_price else 0 :=
  rfl

theorem calculate_metrics_rvol (t : TokenSnapshot) (gd : GlobalData) :
    (calculate_metrics t gd).rvol =
      if 0 < t.market_cap then t.total_volume / t.market_cap else 0 := rfl

theorem calculate_metrics_vsi (t : TokenSnapshot) (gd : GlobalData) :
    (calculate_metrics t gd).vsi =
      if 0 < gd.total_volume_usd then
        t.total_volume / gd.total_volume_usd
      else 0 := rfl

theorem calculate_additional_metrics_pg (t : TokenSnapshot) :
    (calculate_additional_metrics t).potential_gains =
      (if 0 < t.ath then t.ath else 1) /
        (if 0 < t.current_price then t.current_price else 1) := rfl

theorem calculate_additional_metrics_mc_vol (t : TokenSnapshot) :
    (calculate_additional_metrics t).mc_vol =
      (if 0 < t.market_cap then t.market_cap else 1) /
        (if 0 < t.total_volume then t.total_volume else 1) := rfl

theorem calculate_additional_metrics_pc7 (t : TokenSnapshot) :
    (calculate_additional_metrics t).price_change_7d =
      match t.price_change_percentage_7d_in_currency with
      | none => some 0
      | some v => v := rfl

/-- C4: `calculate_metrics` returns pvr = 0 when current_price ≤ 0,
rvol = 0 when market_cap ≤ 0 and vsi = 0 when the global total volume
is ≤ 0 (total functions, no error and no NaN in the model); and
`calculate_additional_metrics` substitutes 1 for each of current_price,
ath, total_volume and market_cap that is ≤ 0 before dividing, so both
ratio denominators are strictly positive and the divisions are exact. -/
theorem c4_fail_soft_guards (t : TokenSnapshot) (gd : GlobalData) :
    (t.current_price ≤ 0 → (calculate_metrics t gd).pvr = 0) ∧
    (t.market_cap ≤ 0 → (calculate_metrics t gd).rvol = 0) ∧
    (gd.total_volume_usd ≤ 0 → (calculate_metrics t gd).vsi = 0) ∧
    ∃ cp athp tv mc : ℚ,
      0 < cp ∧ 0 < athp ∧ 0 < tv ∧ 0 < mc ∧
      (0 < t.current_price → cp = t.current_price) ∧
      (t.current_price ≤ 0 → cp = 1) ∧
      (0 < t.ath → athp = t.ath) ∧
      (t.ath ≤ 0 → athp = 1) ∧
      (0 < t.total_volume → tv = t.total_volume) ∧
      (t.total_volume ≤ 0 → tv = 1) ∧
      (0 < t.market_cap → mc = t.market_cap) ∧
      (t.market_cap ≤ 0 → mc = 1) ∧
      (calculate_additional_metrics t).potential_gains = athp / cp ∧
      (calculate_additional_metrics t).mc_vol = mc / tv := by
  refine ⟨?_, ?_, ?_, ?_⟩
  · intro h; rw [calculate_metrics_pvr, if_neg (not_lt.2 h)]
  · intro h; rw [calculate_metrics_rvol, if_neg (not_lt.2 h)]
  · intro h; rw [calculate_metrics_vsi, if_neg (not_lt.2 h)]
  · refine ⟨if 0 < t.current_price then t.current_price else 1,
      if 0 < t.ath then t.ath else 1,
      if 0 < t.total_volume then t.total_volume else 1,
      if 0 < t.market_cap then t.market_cap else 1,
      ?_, ?_, ?_, ?_, ?_, ?_, ?_, ?_, ?_, ?_, ?_, ?_,
      calculate_additional_metrics_pg t,
      calculate_additional_metrics_mc_vol t⟩
    · split_ifs with h; exacts [h, one_pos]
    · split_ifs with h; exacts [h, one_pos]
    · split_ifs with h; exacts [h, one_pos]
    · split_ifs with h; exacts [h, one_pos]
    · intro h; rw [if_pos h]
    · intro h; rw [if_neg (not_lt.2 h)]
    · intro h; rw [if_pos h]
    · intro h; rw [if_neg (not_lt.2 h)]
    · intro h; rw [if_pos h]
    · intro h; rw [if_neg (not_lt.2 h)]
    · intro h; rw [if_pos h]
    · intro h; rw [if_neg (not_lt.2 h)]

/-- Concrete degenerate token (negative price and volume, zero market
cap, negative ath) and zero global volume, instantiating C4. -/
def c4Tok : TokenSnapshot := ⟨"bad", "bd", -2, -3, 0, -1, none⟩

/-- Concrete global aggregate with zero total volume (C4 instance). -/
def c4Glob : GlobalData := ⟨0⟩

theorem c4_witness :
    (calculate_metrics c4Tok c4Glob).pvr = 0 ∧
    (calculate_metrics c4Tok c4Glob).rvol = 0 ∧
    (calculate_metrics c4Tok c4Glob).vsi = 0 :=
  ⟨(c4_fail_soft_guards c4Tok c4Glob).1 (by norm_num [c4Tok]),
   (c4_fail_soft_guards c4Tok c4Glob).2.1 (by norm_num [c4Tok]),
   (c4_fail_soft_guards c4Tok c4Glob).2.2.1 (by norm_num [c4Glob])⟩

/-- C5: for any four top-30 name sets, the three partitions computed by
the source (all four, exactly three, exactly two) are pairwise disjoint
and their union is contained in the union of the four input sets. -/
theorem c5_partitions_disjoint_and_bounded (A B C D : Finset String) :
    Disjoint (tokens_in_all_four A B C D) (tokens_in_three A B C D) ∧
    Disjoint (tokens_in_all_four A B C D) (tokens_in_two A B C D) ∧
    Disjoint (tokens_in_three A B C D) (tokens_in_two A B C D) ∧
    (tokens_in_all_four A B C D ∪ tokens_in_three A B C D ∪
      tokens_in_two A B C D) ⊆ A ∪ B ∪ C ∪ D := by
  refine ⟨Finset.disjoint_sdiff, ?_, Finset.disjoint_sdiff, ?_⟩
  · have h1 : tokens_in_two A B C D ⊆
        ((A ∩ B) ∪ (A ∩ C) ∪ (A ∩ D) ∪ (B ∩ C) ∪ (B ∩ D) ∪ (C ∩ D)) \
          tokens_in_all_four A B C D := by
      rw [tokens_in_two]
      exact Finset.sdiff_subset
    exact Disjoint.mono_right h1 Finset.disjoint_sdiff
  · intro x hx
    simp only [tokens_in_all_four, tokens_in_three, tokens_in_two,
      Finset.mem_union, Finset.mem_sdiff, Finset.mem_inter] at hx ⊢
    tauto

/-- Token whose 7-day change field is present with a null value: the
input on which the C7 claim fails. -/
def c7NullTok : TokenSnapshot := ⟨"nulltok", "nt", 1, 1, 1, 1, some none⟩

/-- C7 counterexample: on a token whose 7-day change field is present
but null, `calculate_additional_metrics` returns the null (Python
`None`) unchanged, not 0 — `dict.get(key, 0)` only defaults when the
key is absent.  This refutes the claim that the result equals 0
whenever the field is absent or null. -/
theorem c7_counterexample :
    c7NullTok.price_change_percentage_7d_in_currency = some none ∧
    (calculate_additional_metrics c7NullTok).price_change_7d ≠ some 0 := by
  constructor
  · rfl
  · rw [calculate_additional_metrics_pc7]
    simp [c7NullTok]

/-- C7 (amended): `price_change_7d` equals the field value when the
field is present (including a present null, which is passed through as
null), and equals 0 only when the field is absent. -/
theorem c7_price_change_get_semantics (t : TokenSnapshot) :
    (t.price_change_percentage_7d_in_currency = none →
      (calculate_additional_metrics t).price_change_7d = some 0) ∧
    ∀ v : Option ℚ, t.price_change_percentage_7d_in_currency = some v →
      (calculate_additional_metrics t).price_change_7d = v := by
  constructor
  · intro h; rw [calculate_additional_metrics_pc7, h]
  · intro v h; rw [calculate_additional_metrics_pc7, h]

/-- Token whose 7-day change field is absent (C7 instance). -/
def c7AbsentTok : TokenSnapshot := ⟨"abs", "ab", 1, 1, 1, 1, none⟩

/-- Token whose 7-day change field is present and non-null (C7
instance). -/
def c7PresentTok : TokenSnapshot := ⟨"pres", "pr", 1, 1, 1, 1, some (some 7)⟩

theorem c7_witness :
    (calculate_additional_metrics c7AbsentTok).price_change_7d = some 0 ∧
    (calculate_additional_metrics c7PresentTok).price_change_7d = some 7 :=
  ⟨(c7_price_change_get_semantics c7AbsentTok).1 rfl,
   (c7_price_change_get_semantics c7PresentTok).2 (some 7) rfl⟩

/-- C8: `fetch_with_rate_limit` issues a second request after a 60-unit
sleep exactly when the first response has status 429; a non-429 non-200
first status yields `None` with a single request and no sleep; a 429
followed by a non-200 retry yields `None` after the one retry. -/
theorem c8_retry_exactly_once_on_429 (resp : ℕ → HttpResponse) :
    ((fetch_with_rate_limit resp).requests = 2 ∧
        (fetch_with_rate_limit resp).slept = 60 ↔ (resp 0).status = 429) ∧
    ((resp 0).status ≠ 429 →
      (fetch_with_rate_limit resp).requests = 1 ∧
        (fetch_with_rate_limit resp).slept = 0) ∧
    ((resp 0).status ≠ 429 → (resp 0).status ≠ 200 →
      (fetch_with_rate_limit resp).result = none) ∧
    ((resp 0).status = 429 → (resp 1).status ≠ 200 →
      (fetch_with_rate_limit resp).result = none) := by
  simp only [fetch_with_rate_limit]
  split_ifs <;> simp_all

/-- Response sequence: first response 429, retry 500 (C8 instance). -/
def c8Resp : ℕ → HttpResponse := fun i => if i = 0 then ⟨429, 0⟩ else ⟨500, 7⟩

theorem c8_witness :
    ((fetch_with_rate_limit c8Resp).requests = 2 ∧
      (fetch_with_rate_limit c8Resp).slept = 60) ∧
    (fetch_with_rate_limit c8Resp).result = none :=
  ⟨(c8_retry_exactly_once_on_429 c8Resp).1.2 (by decide),
   (c8_retry_exactly_once_on_429 c8Resp).2.2.2 (by decide) (by decide)⟩

/-- C9: when the global-aggregate fetch returned `None`, `rank_tier`
reports failure without fetching the token page and with zero per-token
computation: no `calculate_metrics` call, no ranking, no additional
metrics. -/
theorem c9_global_failure_skips_all_computation
    (page : Option (List TokenSnapshot)) :
    rank_tier none page =
      { ok := false, pages_fetched := 0, metrics_computed := 0,
        ranked := none, additional := [] } := rfl

theorem fvalNeg_fdiv_zero_of_nonneg (a : ℚ) (h : 0 ≤ a) :
    fvalNeg (fdiv a 0) = false := by
  rw [fdiv]
  rcases eq_or_lt_of_le h with heq | hlt
  · rw [if_pos rfl, if_pos heq.symm]; rfl
  · rw [if_pos rfl, if_neg (ne_of_gt hlt), if_pos hlt]; rfl

theorem fvalNeg_fdiv_zero_of_neg (a : ℚ) (h : a < 0) :
    fvalNeg (fdiv a 0) = true := by
  rw [fdiv, if_pos rfl, if_neg (ne_of_lt h), if_neg (not_lt.2 (le_of_lt h))]
  rfl

/-- Batch of metrics with pvr values 1 and -1: the batch mean of pvr is
zero, and the token with negative pvr refutes the C10 claim. -/
def c10NegBatch : List TokenMetrics :=
  [⟨"p", 1, 0, 0, 0⟩, ⟨"n", -1, 0, 0, 0⟩]

/-- C10 counterexample: a nonempty batch with mean pvr zero in which a
ranked token has pvrd_score = +1, not -1: its pvr is negative, so its
pvrd is -inf, which does satisfy the strict `pvrd < 0` test.  This
refutes the claim that every token of a zero-mean-pvr batch gets
pvrd_score = -1. -/
theorem c10_counterexample :
    c10NegBatch ≠ [] ∧
    meanQ (c10NegBatch.map TokenMetrics.pvr) = 0 ∧
    score_token c10NegBatch ⟨"n", -1, 0, 0, 0⟩ ∈ rank_tokens c10NegBatch ∧
    (score_token c10NegBatch ⟨"n", -1, 0, 0, 0⟩).pvrd_score = 1 := by
  refine ⟨by simp [c10NegBatch], by norm_num [c10NegBatch, meanQ], ?_, ?_⟩
  · norm_num [rank_tokens, score_tokens, sortDesc, insertDesc, score_token,
      c10NegBatch, meanQ, fdiv, fvalNeg]
  · norm_num [score_token, c10NegBatch, meanQ, fdiv, fvalNeg]

/-- C10 (amended): for every nonempty batch whose mean pvr is zero,
`rank_tokens` still completes and returns min(30, n) rows (the division
by the zero mean yields an extended value, never an error), and the
strict `pvrd < 0` test gives pvrd_score = -1 to every token with
nonnegative pvr (pvrd is NaN or +inf there) — while a token with
negative pvr gets pvrd_score = +1 (pvrd is -inf). -/
theorem c10_zero_mean_pvrd_scores (ms : List TokenMetrics) (_hne : ms ≠ [])
    (hmean : meanQ (ms.map TokenMetrics.pvr) = 0) :
    (rank_tokens ms).length = min 30 ms.length ∧
    ∀ m ∈ ms,
      (0 ≤ m.pvr → (score_token ms m).pvrd_score = -1) ∧
      (m.pvr < 0 → (score_token ms m).pvrd_score = 1) := by
  refine ⟨rank_tokens_length ms, ?_⟩
  intro m _
  have hpvrd : (score_token ms m).pvrd = fdiv m.pvr 0 := by
    rw [score_token_pvrd, hmean, sub_zero]
  constructor
  · intro h0
    rw [score_token_pvrd_score, hpvrd, fvalNeg_fdiv_zero_of_nonneg m.pvr h0]
    simp
  · intro hneg
    rw [score_token_pvrd_score, hpvrd, fvalNeg_fdiv_zero_of_neg m.pvr hneg]
    simp

/-- Single-token batch with pvr 0, the all-zero instance of C10. -/
def c10ZeroBatch : List TokenMetrics := [⟨"z", 0, 0, 0, 0⟩]

theorem c10_witness :
    (rank_tokens c10ZeroBatch).length = min 30 c10ZeroBatch.length ∧
    (score_token c10ZeroBatch ⟨"z", 0, 0, 0, 0⟩).pvrd_score = -1 :=
  ⟨(c10_zero_mean_pvrd_scores c10ZeroBatch (by simp [c10ZeroBatch])
      (by norm_num [c10ZeroBatch, meanQ])).1,
   ((c10_zero_mean_pvrd_scores c10ZeroBatch (by simp [c10ZeroBatch])
      (by norm_num [c10ZeroBatch, meanQ])).2 ⟨"z", 0, 0, 0, 0⟩
      (by simp [c10ZeroBatch])).1 (le_refl 0)⟩

end CoinGecko
